import Mathlib

/-!
Verification development for the Streamlit chat front-end in `app.py`.

The application keeps per-session state (chat transcript, active-agent flags,
year/quarter filters, last research document), and on each chat submission
performs one HTTP POST to an external research API, appending the outcome to
the transcript.  Below, the session state, the message records, the request
construction, the selectbox logic, the clear-conversation handler, the
download-link generator (with its base64 encoder) and the chat-input handler
are embedded as executable Lean definitions, translated from `app.py`.
-/

set_option autoImplicit false

namespace App

/-- A chat message, modelling the Python dicts appended to
`st.session_state.messages`.  User messages are built as
`\x7b"role": "user", "content": prompt\x7d` (no `is_markdown` key), assistant
messages carry an `is_markdown` flag; the render loop additionally reads an
optional `visualization` key, so both optional keys are modelled as
`Option` fields (`none` = key absent). -/
structure Message where
  role : String
  content : String
  is_markdown : Option Bool
  visualization : Option String
deriving Repr, DecidableEq

/-- The per-session state: `st.session_state.messages`,
`st.session_state.research_document`, the three entries of
`st.session_state.active_agents` (keys `snowflake_agent`, `rag_agent`,
`web_search_agent`), and the `year` / `quarter` selector values (strings,
as produced by the selectboxes, with sentinel `"None"`). -/
structure SessionState where
  messages : List Message
  research_document : Option String
  snowflake_agent : Bool
  rag_agent : Bool
  web_search_agent : Bool
  year : String
  quarter : String
deriving Repr, DecidableEq

/-- Result of parsing the HTTP response body as JSON (`response.json()`):
either a JSON object, modelled as an association list of string fields
(the only field the live code reads, `report`, is a string), or a parse
failure carrying the exception text. -/
inductive JsonParse where
  | ok (fields : List (String × String))
  | err (msg : String)
deriving Repr, DecidableEq

/-- An HTTP response as seen through the `requests` API: `status_code`,
raw body `text`, and the outcome of `response.json()`. -/
structure ApiResponse where
  status_code : Nat
  text : String
  json : JsonParse
deriving Repr, DecidableEq

/-- Outcome of `requests.post`: either an HTTP exchange that completed
(any status code), or a raised exception (connection error, timeout),
carrying `str(e)`. -/
inductive ApiResult where
  | success (resp : ApiResponse)
  | transportError (msg : String)
deriving Repr, DecidableEq

/-- The list comprehension
`[name for name, is_active in st.session_state.active_agents.items() if is_active]`
over the three agent flags, in dict insertion order. -/
def active_agent_names (s : SessionState) : List String :=
  ([("snowflake_agent", s.snowflake_agent),
    ("rag_agent", s.rag_agent),
    ("web_search_agent", s.web_search_agent)].filter (fun p => p.2)).map
    (fun p => p.1)

/-- One checkbox interaction: `st.session_state.active_agents[name] = enabled`
for one of the three known agent names (any other name leaves the state
unchanged; the sidebar only ever uses the three). -/
def toggle_agent (s : SessionState) (name : String) (enabled : Bool) :
    SessionState :=
  if name = "snowflake_agent" then { s with snowflake_agent := enabled }
  else if name = "rag_agent" then { s with rag_agent := enabled }
  else if name = "web_search_agent" then { s with web_search_agent := enabled }
  else s

/-- Fold a sequence of checkbox interactions over the session state. -/
def applyToggles (s : SessionState) (ops : List (String × Bool)) :
    SessionState :=
  ops.foldl (fun t p => toggle_agent t p.1 p.2) s

/-- The sidebar year/quarter selectbox logic (`app.py` lines 66-81): the
year selectbox stores the selected option; when the stored year is the
sentinel `"None"`, the quarter selectbox is rendered with `disabled=True`
and `index=0`, so its value is its default option `"None"` (the user
cannot interact with it); otherwise the quarter selectbox stores the
selected option. -/
def set_filters (s : SessionState) (yearSel quarterSel : String) :
    SessionState :=
  let s1 := { s with year := yearSel }
  if s1.year = "None" then { s1 with quarter := "None" }
  else { s1 with quarter := quarterSel }

/-- The `Clear Conversation` button handler (`app.py` lines 83-86):
resets the transcript and the stored research document. -/
def clear_session (s : SessionState) : SessionState :=
  { s with messages := [], research_document := none }

/-- The standard base64 alphabet, indices 0-63. -/
def b64chars : List Char :=
  ['A', 'B', 'C', 'D', 'E', 'F', 'G', 'H', 'I', 'J', 'K', 'L', 'M',
   'N', 'O', 'P', 'Q', 'R', 'S', 'T', 'U', 'V', 'W', 'X', 'Y', 'Z',
   'a', 'b', 'c', 'd', 'e', 'f', 'g', 'h', 'i', 'j', 'k', 'l', 'm',
   'n', 'o', 'p', 'q', 'r', 's', 't', 'u', 'v', 'w', 'x', 'y', 'z',
   '0', '1', '2', '3', '4', '5', '6', '7', '8', '9', '+', '/']

/-- Character of a sextet value (0-63). -/
def b64Char (n : Nat) : Char := b64chars.getD n 'A'

/-- Sextet value of a base64 alphabet character. -/
def b64Index (c : Char) : Nat := (b64chars.indexOf? c).getD 0

/-- Standard base64 encoding of a byte sequence (`base64.b64encode`),
three bytes to four characters, with `=` padding. -/
def b64encodeBytes : List Nat → List Char
  | [] => []
  | [b1] =>
      [b64Char (b1 / 4), b64Char (b1 % 4 * 16), '=', '=']
  | [b1, b2] =>
      [b64Char (b1 / 4), b64Char (b1 % 4 * 16 + b2 / 16),
       b64Char (b2 % 16 * 4), '=']
  | b1 :: b2 :: b3 :: rest =>
      b64Char (b1 / 4) :: b64Char (b1 % 4 * 16 + b2 / 16) ::
      b64Char (b2 % 16 * 4 + b3 / 64) :: b64Char (b3 % 64) ::
      b64encodeBytes rest

/-- Standard base64 decoding (`base64.b64decode`) of a padded base64
string, four characters to three bytes, honouring `=` padding. -/
def b64decodeChars : List Char → List Nat
  | c1 :: c2 :: c3 :: c4 :: rest =>
      if c3 = '=' then
        [b64Index c1 * 4 + b64Index c2 / 16]
      else if c4 = '=' then
        [b64Index c1 * 4 + b64Index c2 / 16,
         b64Index c2 % 16 * 16 + b64Index c3 / 4]
      else
        (b64Index c1 * 4 + b64Index c2 / 16) ::
        (b64Index c2 % 16 * 16 + b64Index c3 / 4) ::
        (b64Index c3 % 4 * 64 + b64Index c4) :: b64decodeChars rest
  | _ => []

/-- UTF-8 bytes of one character (code point), standard 1-4 byte encoding. -/
def utf8Bytes (c : Char) : List Nat :=
  let n := c.toNat
  if n < 128 then [n]
  else if n < 2048 then [192 + n / 64, 128 + n % 64]
  else if n < 65536 then [224 + n / 4096, 128 + n / 64 % 64, 128 + n % 64]
  else [240 + n / 262144, 128 + n / 4096 % 64, 128 + n / 64 % 64, 128 + n % 64]

/-- UTF-8 bytes of a string, as natural numbers: `file_content.encode()`. -/
def encodeUTF8 (s : String) : List Nat :=
  (s.toList.map utf8Bytes).flatten

/-- The base64 payload embedded in the download hyperlink:
`base64.b64encode(file_content.encode()).decode()`. -/
def downloadPayload (file_content : String) : List Char :=
  b64encodeBytes (encodeUTF8 file_content)

/-- `get_download_link` (`app.py` lines 93-102): builds the HTML anchor
embedding the base64-encoded file content as a data URL. -/
def get_download_link (file_content : String) (file_name : String) : String :=
  let b64 : String := ⟨downloadPayload file_content⟩
  "<a href=\"data:file/markdown;base64," ++ b64 ++ "\" download=\"" ++
    file_name ++ "\">Download " ++ file_name ++ "</a>"

/-- The sidebar condition `if st.session_state.research_document:`
(`app.py` line 234), with Python truthiness: `None` and the empty string
are falsy. -/
def showDownloadLink (s : SessionState) : Bool :=
  match s.research_document with
  | none => false
  | some r => !(r == "")

/-- The query parameters of the outbound `requests.post` call
(`app.py` lines 148-173), together with path, method and timeout. -/
structure ChatRequest where
  path : String
  method : String
  message : String
  snowflake_agent : Bool
  pinecone_agent : Bool
  websearch_agent : Bool
  year : Option Int
  quarter : Option Int
  timeout : Nat
deriving Repr, DecidableEq

/-- Python `int()` on the decimal numerals produced by the selectboxes
(`"2022"`..`"2025"`, `"1"`..`"4"`): fold the decimal digits. -/
def pyInt (s : String) : Int :=
  Int.ofNat (s.toList.foldl (fun acc c => acc * 10 + (c.toNat - '0'.toNat)) 0)

/-- The request built by the chat handler: POST to `/chat` under the
configured base URL, with `message`, the three agent flags (the
`rag_agent` flag is sent as the `pinecone_agent` parameter), `year` and
`quarter` converted by `None if x == "None" else int(x)` (Python `int` is
modelled by `pyInt`; the selectbox options only supply decimal numerals
whenever the value is not the sentinel), and `timeout=120`. -/
def outboundRequest (s : SessionState) (prompt : String) : ChatRequest :=
  { path := "/chat"
    method := "POST"
    message := prompt
    snowflake_agent := s.snowflake_agent
    pinecone_agent := s.rag_agent
    websearch_agent := s.web_search_agent
    year := if s.year = "None" then none else some (pyInt s.year)
    quarter := if s.quarter = "None" then none else some (pyInt s.quarter)
    timeout := 120 }

/-- The user message dict `\x7b"role": "user", "content": prompt\x7d`. -/
def userMessage (prompt : String) : Message :=
  { role := "user", content := prompt, is_markdown := none,
    visualization := none }

/-- The body of the accepted chat submission (`app.py` lines 133-229):
append the user message, perform the API call, then append exactly one
assistant message according to the outcome.  A JSON parse failure inside
the 200-branch (`response.json()`, line 176) is raised inside the `try`
and caught by the same `except` as transport failures. -/
def submit_query (s : SessionState) (prompt : String) (api : ApiResult) :
    SessionState :=
  let s1 := { s with messages := s.messages ++ [userMessage prompt] }
  match api with
  | .success resp =>
      if resp.status_code = 200 then
        match resp.json with
        | .ok body =>
            let research_document := (body.lookup "report").getD ""
            { s1 with
              research_document := some research_document
              messages := s1.messages ++
                [{ role := "assistant", content := research_document,
                   is_markdown := some true, visualization := none }] }
        | .err e =>
            { s1 with messages := s1.messages ++
                [{ role := "assistant",
                   content :=
                     "Error: Unable to connect to the research API. " ++ e,
                   is_markdown := some false, visualization := none }] }
      else
        { s1 with messages := s1.messages ++
            [{ role := "assistant",
               content :=
                 "Error: Unable to generate research document. Status code: "
                   ++ toString resp.status_code,
               is_markdown := some false, visualization := none }] }
  | .transportError e =>
      { s1 with messages := s1.messages ++
          [{ role := "assistant",
             content := "Error: Unable to connect to the research API. " ++ e,
             is_markdown := some false, visualization := none }] }

/-- Whether the chat input is rendered in its disabled form
(`app.py` line 231): exactly when no agent is active. -/
def chat_input_disabled (s : SessionState) : Bool :=
  !(decide ((active_agent_names s).length > 0))

/-- The chat input handler (`app.py` lines 132-231): the submission body
only runs when at least one agent is active and `st.chat_input` produced
a truthy (non-empty) prompt. -/
def chat_input_handler (s : SessionState) (promptOpt : Option String)
    (api : ApiResult) : SessionState :=
  if (active_agent_names s).length > 0 then
    match promptOpt with
    | none => s
    | some prompt => if prompt = "" then s else submit_query s prompt api
  else s

/-- The assistant message produced by one accepted submission, as a
function of the API outcome (read off from the branches of the handler;
used to state transcript-shape theorems). -/
def assistantReply (api : ApiResult) : Message :=
  match api with
  | .success resp =>
      if resp.status_code = 200 then
        match resp.json with
        | .ok body =>
            { role := "assistant", content := (body.lookup "report").getD "",
              is_markdown := some true, visualization := none }
        | .err e =>
            { role := "assistant",
              content := "Error: Unable to connect to the research API. " ++ e,
              is_markdown := some false, visualization := none }
      else
        { role := "assistant",
          content :=
            "Error: Unable to generate research document. Status code: "
              ++ toString resp.status_code,
          is_markdown := some false, visualization := none }
  | .transportError e =>
      { role := "assistant",
        content := "Error: Unable to connect to the research API. " ++ e,
        is_markdown := some false, visualization := none }

/-- Decidable check that `needle` occurs at the start of `hay`. -/
def startsWith : List Char → List Char → Bool
  | _, [] => true
  | [], _ :: _ => false
  | h :: hs, n :: ns => h = n && startsWith hs ns

/-- Decidable substring check on character lists. -/
def hasSub : List Char → List Char → Bool
  | [], needle => needle.isEmpty
  | h :: t, needle => startsWith (h :: t) needle || hasSub t needle

/-- Decidable substring check on strings ("content contains ..."). -/
def strContains (hay needle : String) : Bool :=
  hasSub hay.toList needle.toList

/-- Spec-side conversion of the fiscal-year enum to an optional integer. -/
def yearEnumToInt : String → Option Int
  | "2022" => some 2022
  | "2023" => some 2023
  | "2024" => some 2024
  | "2025" => some 2025
  | _ => none

/-- Spec-side conversion of the fiscal-quarter enum to an optional integer. -/
def quarterEnumToInt : String → Option Int
  | "1" => some 1
  | "2" => some 2
  | "3" => some 3
  | "4" => some 4
  | _ => none

/-- A sample session state with one active agent, used to instantiate
theorems with hypotheses at concrete inputs. -/
def sampleState : SessionState :=
  { messages := [], research_document := none,
    snowflake_agent := false, rag_agent := true, web_search_agent := false,
    year := "2023", quarter := "2" }

/-- A sample session state that already holds a transcript and a stored
research document. -/
def sampleStateWithDoc : SessionState :=
  { messages := [userMessage "old question"],
    research_document := some "# Old report",
    snowflake_agent := true, rag_agent := false, web_search_agent := false,
    year := "None", quarter := "None" }

/-- The sextet-to-character table is inverted by the index lookup. -/
theorem b64Index_b64Char : ∀ n : Fin 64, b64Index (b64Char n.val) = n.val := by
  decide

/-- No base64 alphabet character is the padding character. -/
theorem b64Char_ne_pad : ∀ n : Fin 64, b64Char n.val ≠ '=' := by decide

/-- Decoding inverts encoding on byte sequences. -/
theorem b64_roundtrip : ∀ bs : List Nat, (∀ b ∈ bs, b < 256) →
    b64decodeChars (b64encodeBytes bs) = bs
  | [], _ => rfl
  | [b1], h => by
      have hb1 : b1 < 256 := h b1 (by simp)
      have e1 := b64Index_b64Char ⟨b1 / 4, by omega⟩
      have e2 := b64Index_b64Char ⟨b1 % 4 * 16, by omega⟩
      simp [b64encodeBytes, b64decodeChars, e1, e2]
      omega
  | [b1, b2], h => by
      have hb1 : b1 < 256 := h b1 (by simp)
      have hb2 : b2 < 256 := h b2 (by simp)
      have e1 := b64Index_b64Char ⟨b1 / 4, by omega⟩
      have e2 := b64Index_b64Char ⟨b1 % 4 * 16 + b2 / 16, by omega⟩
      have e3 := b64Index_b64Char ⟨b2 % 16 * 4, by omega⟩
      have n3 := b64Char_ne_pad ⟨b2 % 16 * 4, by omega⟩
      simp [b64encodeBytes, b64decodeChars, e1, e2, e3, n3]
      constructor <;> omega
  | [b1, b2, b3], h => by
      have hb1 : b1 < 256 := h b1 (by simp)
      have hb2 : b2 < 256 := h b2 (by simp)
      have hb3 : b3 < 256 := h b3 (by simp)
      have e1 := b64Index_b64Char ⟨b1 / 4, by omega⟩
      have e2 := b64Index_b64Char ⟨b1 % 4 * 16 + b2 / 16, by omega⟩
      have e3 := b64Index_b64Char ⟨b2 % 16 * 4 + b3 / 64, by omega⟩
      have e4 := b64Index_b64Char ⟨b3 % 64, by omega⟩
      have n3 := b64Char_ne_pad ⟨b2 % 16 * 4 + b3 / 64, by omega⟩
      have n4 := b64Char_ne_pad ⟨b3 % 64, by omega⟩
      simp [b64encodeBytes, b64decodeChars, e1, e2, e3, e4, n3, n4]
      refine ⟨by omega, by omega, by omega⟩
  | b1 :: b2 :: b3 :: b4 :: rest, h => by
      have hb1 : b1 < 256 := h b1 (by simp)
      have hb2 : b2 < 256 := h b2 (by simp)
      have hb3 : b3 < 256 := h b3 (by simp)
      have e1 := b64Index_b64Char ⟨b1 / 4, by omega⟩
      have e2 := b64Index_b64Char ⟨b1 % 4 * 16 + b2 / 16, by omega⟩
      have e3 := b64Index_b64Char ⟨b2 % 16 * 4 + b3 / 64, by omega⟩
      have e4 := b64Index_b64Char ⟨b3 % 64, by omega⟩
      have n3 := b64Char_ne_pad ⟨b2 % 16 * 4 + b3 / 64, by omega⟩
      have n4 := b64Char_ne_pad ⟨b3 % 64, by omega⟩
      have ih := b64_roundtrip (b4 :: rest)
        (fun b hb => h b (by simp [List.mem_cons] at hb ⊢; tauto))
      simp [b64encodeBytes, b64decodeChars, e1, e2, e3, e4, n3, n4, ih]
      refine ⟨by omega, by omega, by omega⟩

/-- Every code point is below the Unicode bound. -/
theorem char_toNat_lt (c : Char) : c.toNat < 1114112 := by
  have h := c.valid
  unfold UInt32.isValidChar Nat.isValidChar at h
  rcases h with h | h <;> simp [Char.toNat] <;> omega

/-- Each UTF-8 byte of a character is an 8-bit value. -/
theorem utf8Bytes_lt (c : Char) : ∀ b ∈ utf8Bytes c, b < 256 := by
  have h := char_toNat_lt c
  intro b hb
  simp only [utf8Bytes] at hb
  by_cases h1 : c.toNat < 128 <;> by_cases h2 : c.toNat < 2048 <;>
    by_cases h3 : c.toNat < 65536 <;>
    simp_all [List.mem_cons] <;> omega

/-- Each UTF-8 byte of a string is an 8-bit value. -/
theorem encodeUTF8_lt (s : String) : ∀ b ∈ encodeUTF8 s, b < 256 := by
  intro b hb
  simp only [encodeUTF8, List.mem_flatten, List.mem_map] at hb
  obtain ⟨l, ⟨c, _, rfl⟩, hbl⟩ := hb
  exact utf8Bytes_lt c b hbl

/-- A list occurs at the start of itself extended on the right. -/
theorem startsWith_append_right : ∀ (a b : List Char),
    startsWith (a ++ b) a = true
  | [], b => by simp [startsWith]
  | c :: t, b => by simp [startsWith, startsWith_append_right t b]

/-- A list occurs at the start of itself. -/
theorem startsWith_self (l : List Char) : startsWith l l = true := by
  have h := startsWith_append_right l []
  simpa using h

/-- A suffix is found by the substring scan. -/
theorem hasSub_append : ∀ (a b : List Char), hasSub (a ++ b) b = true
  | [], [] => rfl
  | [], c :: t => by simp [hasSub, startsWith_self]
  | c :: t, b => by simp [hasSub, hasSub_append t b]

/-- A prefix is found by the substring scan. -/
theorem hasSub_prefix : ∀ (l m : List Char), hasSub (l ++ m) l = true
  | [], [] => rfl
  | [], c :: t => by simp [hasSub, startsWith]
  | c :: t, m => by
      have h := startsWith_append_right (c :: t) m
      simp only [List.cons_append] at h
      simp [hasSub, h]

/-- A string contains its own suffix. -/
theorem strContains_append_right (a b : String) :
    strContains (a ++ b) b = true := by
  show hasSub (a ++ b).data b.data = true
  rw [String.data_append]
  exact hasSub_append a.data b.data

/-- A string contains its own prefix. -/
theorem strContains_append_left (a b : String) :
    strContains (a ++ b) a = true := by
  show hasSub (a ++ b).data a.data = true
  rw [String.data_append]
  exact hasSub_prefix a.data b.data

/-- C7: round-trip of the file export: decoding the base64 payload embedded
in the hyperlink produced by `get_download_link` yields the stored report
text byte-for-byte, for every report. -/
theorem download_link_roundtrip (report : String) :
    b64decodeChars (downloadPayload report) = encodeUTF8 report ∧
    get_download_link report "Research_Document.md" =
      "<a href=\"data:file/markdown;base64," ++
        String.mk (downloadPayload report) ++ "\" download=\"" ++
        "Research_Document.md" ++ "\">Download " ++
        "Research_Document.md" ++ "</a>" :=
  ⟨b64_roundtrip (encodeUTF8 report) (encodeUTF8_lt report), rfl⟩

/-- C8: clear_session always yields an empty transcript and no stored
report, for every prior state, and is idempotent. -/
theorem clear_session_spec (s : SessionState) :
    (clear_session s).messages = [] ∧
    (clear_session s).research_document = none ∧
    clear_session (clear_session s) = clear_session s :=
  ⟨rfl, rfl, rfl⟩

/-- C1: an accepted chat submission (at least one active agent, non-empty
prompt) appends exactly one user message followed by exactly one assistant
message, on every path (success, non-OK status, JSON parse failure,
transport failure): never zero assistant messages, never more than two
messages per call. -/
theorem submit_appends_one_user_one_assistant
    (s : SessionState) (prompt : String) (api : ApiResult)
    (hA : (active_agent_names s).length > 0) (hp : prompt ≠ "") :
    (chat_input_handler s (some prompt) api).messages
      = s.messages ++ [userMessage prompt, assistantReply api] ∧
    (userMessage prompt).role = "user" ∧
    (assistantReply api).role = "assistant" ∧
    (chat_input_handler s (some prompt) api).messages.length
      = s.messages.length + 2 := by
  have hrole : (assistantReply api).role = "assistant" := by
    rcases api with resp | e
    · by_cases h200 : resp.status_code = 200
      · rcases hj : resp.json with body | e <;> simp [assistantReply, h200, hj]
      · simp [assistantReply, h200]
    · simp [assistantReply]
  have hmain : (chat_input_handler s (some prompt) api).messages
      = s.messages ++ [userMessage prompt, assistantReply api] := by
    simp only [chat_input_handler, if_pos hA, if_neg hp]
    rcases api with resp | e
    · by_cases h200 : resp.status_code = 200
      · rcases hj : resp.json with body | e <;>
          simp [submit_query, assistantReply, h200, hj]
      · simp [submit_query, assistantReply, h200]
    · simp [submit_query, assistantReply]
  refine ⟨hmain, rfl, hrole, ?_⟩
  simp [hmain]

/-- C1 witness: a concrete accepted submission on the transport-failure
path appends exactly the user message and the assistant reply. -/
theorem submit_appends_one_user_one_assistant_witness :
    (chat_input_handler sampleState (some "q") (.transportError "timeout")).messages
      = sampleState.messages ++
        [userMessage "q", assistantReply (.transportError "timeout")] ∧
    (userMessage "q").role = "user" ∧
    (assistantReply (.transportError "timeout")).role = "assistant" ∧
    (chat_input_handler sampleState (some "q") (.transportError "timeout")).messages.length
      = sampleState.messages.length + 2 :=
  submit_appends_one_user_one_assistant sampleState "q" (.transportError "timeout")
    (by decide) (by decide)

/-- C2 counterexample: with status 200 and a JSON body carrying both a
report and a visualization field, the appended assistant message has no
visualization attached (the visualization handling is commented out). -/
theorem success_visualization_not_attached :
    (chat_input_handler sampleState (some "q")
        (.success { status_code := 200, text := "",
                    json := .ok [("report", "# R"), ("visualization", "IMG")] })).messages
      = [userMessage "q",
         { role := "assistant", content := "# R", is_markdown := some true,
           visualization := none }] := by decide

/-- C2 (amended): on a 200 response with parseable JSON, the report field
(defaulting to the empty string) is stored as the session research
document and appended as a markdown assistant message; no visualization
is ever attached to the message, whether or not a visualization field is
present in the response. -/
theorem success_stores_report_no_visualization
    (s : SessionState) (prompt t : String) (body : List (String × String))
    (hA : (active_agent_names s).length > 0) (hp : prompt ≠ "") :
    (chat_input_handler s (some prompt)
        (.success { status_code := 200, text := t, json := .ok body })).research_document
      = some ((body.lookup "report").getD "") ∧
    (chat_input_handler s (some prompt)
        (.success { status_code := 200, text := t, json := .ok body })).messages
      = s.messages ++
        [userMessage prompt,
         { role := "assistant", content := (body.lookup "report").getD "",
           is_markdown := some true, visualization := none }] := by
  simp only [chat_input_handler, if_pos hA, if_neg hp]
  simp [submit_query]

/-- C2 witness: a concrete successful submission stores the report and
appends the markdown assistant message. -/
theorem success_stores_report_no_visualization_witness :
    (chat_input_handler sampleState (some "q")
        (.success { status_code := 200, text := "",
                    json := .ok [("report", "# Revenue")] })).research_document
      = some (([("report", "# Revenue")].lookup "report").getD "") ∧
    (chat_input_handler sampleState (some "q")
        (.success { status_code := 200, text := "",
                    json := .ok [("report", "# Revenue")] })).messages
      = sampleState.messages ++
        [userMessage "q",
         { role := "assistant",
           content := ([("report", "# Revenue")].lookup "report").getD "",
           is_markdown := some true, visualization := none }] :=
  success_stores_report_no_visualization sampleState "q" ""
    [("report", "# Revenue")] (by decide) (by decide)

/-- The concrete non-OK response of the C3 scenario: status 500 with
body text that is not JSON. -/
def errResponse500 : ApiResponse :=
  { status_code := 500, text := "internal error", json := .err "Expecting value" }

/-- C3 counterexample: with status 500 and body "internal error", the
transcript gains the fixed assistant error message, which contains the
status code but does not contain the response body text (the body appears
only in the transient error banner, not in the appended message). -/
theorem non_ok_message_omits_body :
    (chat_input_handler sampleStateWithDoc (some "q") (.success errResponse500)).messages
      = sampleStateWithDoc.messages ++
        [userMessage "q",
         { role := "assistant",
           content := "Error: Unable to generate research document. Status code: 500",
           is_markdown := some false, visualization := none }] ∧
    strContains "Error: Unable to generate research document. Status code: 500"
      "internal error" = false :=
  ⟨by decide, by decide⟩

/-- C3 (amended): on a non-OK status, exactly one non-markdown assistant
message is appended; its content contains the status code (but not the
response body text), and the stored research document is unchanged. -/
theorem non_ok_appends_status_code_message
    (s : SessionState) (prompt : String) (resp : ApiResponse)
    (hA : (active_agent_names s).length > 0) (hp : prompt ≠ "")
    (hs : resp.status_code ≠ 200) :
    (chat_input_handler s (some prompt) (.success resp)).messages
      = s.messages ++
        [userMessage prompt,
         { role := "assistant",
           content := "Error: Unable to generate research document. Status code: "
             ++ toString resp.status_code,
           is_markdown := some false, visualization := none }] ∧
    strContains ("Error: Unable to generate research document. Status code: "
        ++ toString resp.status_code) (toString resp.status_code) = true ∧
    (chat_input_handler s (some prompt) (.success resp)).research_document
      = s.research_document := by
  refine ⟨?_, strContains_append_right _ _, ?_⟩ <;>
    simp only [chat_input_handler, if_pos hA, if_neg hp] <;>
    simp [submit_query, hs]

/-- C3 witness: the amended statement at the concrete 500-response input. -/
theorem non_ok_appends_status_code_message_witness :
    (chat_input_handler sampleStateWithDoc (some "q") (.success errResponse500)).messages
      = sampleStateWithDoc.messages ++
        [userMessage "q",
         { role := "assistant",
           content := "Error: Unable to generate research document. Status code: "
             ++ toString errResponse500.status_code,
           is_markdown := some false, visualization := none }] ∧
    strContains ("Error: Unable to generate research document. Status code: "
        ++ toString errResponse500.status_code)
      (toString errResponse500.status_code) = true ∧
    (chat_input_handler sampleStateWithDoc (some "q") (.success errResponse500)).research_document
      = sampleStateWithDoc.research_document :=
  non_ok_appends_status_code_message sampleStateWithDoc "q" errResponse500
    (by decide) (by decide) (by decide)

/-- C4: after any sequence of checkbox toggles, the chat input is in its
disabled form exactly when all three agent flags are false, and in that
case the handler never changes the session state (no message appended). -/
theorem submit_requires_active_agent
    (s : SessionState) (ops : List (String × Bool)) (p : Option String)
    (api : ApiResult) :
    (chat_input_disabled (applyToggles s ops) = true ↔
      ((applyToggles s ops).snowflake_agent = false ∧
       (applyToggles s ops).rag_agent = false ∧
       (applyToggles s ops).web_search_agent = false)) ∧
    (chat_input_disabled (applyToggles s ops) = true →
      chat_input_handler (applyToggles s ops) p api = applyToggles s ops) := by
  constructor
  · cases hs : (applyToggles s ops).snowflake_agent <;>
      cases hr : (applyToggles s ops).rag_agent <;>
      cases hw : (applyToggles s ops).web_search_agent <;>
      simp [chat_input_disabled, active_agent_names, hs, hr, hw]
  · intro hd
    have hnot : ¬ ((active_agent_names (applyToggles s ops)).length > 0) := by
      simpa [chat_input_disabled] using hd
    simp [chat_input_handler, hnot]

/-- C4 witness: after toggling the last active agent off, the chat input
is disabled and a submission attempt leaves the state unchanged. -/
theorem submit_requires_active_agent_witness :
    chat_input_disabled (applyToggles sampleState [("rag_agent", false)]) = true ∧
    chat_input_handler (applyToggles sampleState [("rag_agent", false)])
        (some "q") (.transportError "x")
      = applyToggles sampleState [("rag_agent", false)] :=
  ⟨by decide,
   (submit_requires_active_agent sampleState [("rag_agent", false)]
      (some "q") (.transportError "x")).2 (by decide)⟩

/-- C5: the outbound request is a POST to /chat carrying exactly the
query parameters message, snowflake_agent, pinecone_agent (from the
rag_agent flag), websearch_agent, and year/quarter converted from the
enum selections (sentinel to absent), with a 120-second timeout. -/
theorem outbound_request_shape
    (s : SessionState) (prompt : String)
    (hy : s.year ∈ ["None", "2022", "2023", "2024", "2025"])
    (hq : s.quarter ∈ ["None", "1", "2", "3", "4"]) :
    outboundRequest s prompt =
      { path := "/chat", method := "POST", message := prompt,
        snowflake_agent := s.snowflake_agent,
        pinecone_agent := s.rag_agent,
        websearch_agent := s.web_search_agent,
        year := yearEnumToInt s.year,
        quarter := quarterEnumToInt s.quarter,
        timeout := 120 } := by
  have hyear : (if s.year = "None" then none else some (pyInt s.year))
      = yearEnumToInt s.year := by
    simp only [List.mem_cons, List.not_mem_nil, or_false] at hy
    rcases hy with h | h | h | h | h <;> rw [h] <;> decide
  have hquarter : (if s.quarter = "None" then none else some (pyInt s.quarter))
      = quarterEnumToInt s.quarter := by
    simp only [List.mem_cons, List.not_mem_nil, or_false] at hq
    rcases hq with h | h | h | h | h <;> rw [h] <;> decide
  simp only [outboundRequest, hyear, hquarter]

/-- C5 witness: the concrete request for the sample state. -/
theorem outbound_request_shape_witness :
    outboundRequest sampleState "What was NVIDIA revenue?" =
      { path := "/chat", method := "POST",
        message := "What was NVIDIA revenue?",
        snowflake_agent := sampleState.snowflake_agent,
        pinecone_agent := sampleState.rag_agent,
        websearch_agent := sampleState.web_search_agent,
        year := yearEnumToInt sampleState.year,
        quarter := quarterEnumToInt sampleState.quarter,
        timeout := 120 } :=
  outbound_request_shape sampleState "What was NVIDIA revenue?"
    (by decide) (by decide)

/-- C6: selecting year None forces the quarter to None whatever quarter
was requested, and after every set_filters the quarter is non-None only
when the year is non-None. -/
theorem set_filters_quarter_invariant
    (s : SessionState) (y q : String) :
    (set_filters s "None" q).quarter = "None" ∧
    ((set_filters s y q).quarter ≠ "None" → (set_filters s y q).year ≠ "None") := by
  constructor
  · simp [set_filters]
  · intro hq
    by_cases hy : y = "None"
    · subst hy; simp [set_filters] at hq
    · simp [set_filters, hy]

/-- C6 witness: the invariant at concrete selector values. -/
theorem set_filters_quarter_invariant_witness :
    (set_filters sampleState "None" "3").quarter = "None" ∧
    (set_filters sampleState "2023" "2").year ≠ "None" :=
  ⟨(set_filters_quarter_invariant sampleState "2023" "3").1,
   (set_filters_quarter_invariant sampleState "2023" "2").2 (by decide)⟩

/-- C9: on a 200 response whose JSON has no report field, the empty string
is stored as the research document, an empty markdown assistant message is
appended, and the sidebar download link is not shown. -/
theorem missing_report_empty_document
    (s : SessionState) (prompt t : String) (body : List (String × String))
    (hA : (active_agent_names s).length > 0) (hp : prompt ≠ "")
    (hr : body.lookup "report" = none) :
    (chat_input_handler s (some prompt)
        (.success { status_code := 200, text := t, json := .ok body })).research_document
      = some "" ∧
    (chat_input_handler s (some prompt)
        (.success { status_code := 200, text := t, json := .ok body })).messages
      = s.messages ++
        [userMessage prompt,
         { role := "assistant", content := "", is_markdown := some true,
           visualization := none }] ∧
    showDownloadLink (chat_input_handler s (some prompt)
        (.success { status_code := 200, text := t, json := .ok body })) = false := by
  simp only [chat_input_handler, if_pos hA, if_neg hp]
  simp [submit_query, hr, showDownloadLink]

/-- C9 witness: a concrete 200 response without a report field. -/
theorem missing_report_empty_document_witness :
    (chat_input_handler sampleState (some "q")
        (.success { status_code := 200, text := "",
                    json := .ok [("summary", "x")] })).research_document
      = some "" ∧
    (chat_input_handler sampleState (some "q")
        (.success { status_code := 200, text := "",
                    json := .ok [("summary", "x")] })).messages
      = sampleState.messages ++
        [userMessage "q",
         { role := "assistant", content := "", is_markdown := some true,
           visualization := none }] ∧
    showDownloadLink (chat_input_handler sampleState (some "q")
        (.success { status_code := 200, text := "",
                    json := .ok [("summary", "x")] })) = false :=
  missing_report_empty_document sampleState "q" "" [("summary", "x")]
    (by decide) (by decide) (by decide)

/-- C10: on a 200 response whose body is not valid JSON, the parse failure
is handled by the same branch as transport failures: a non-markdown
assistant message describing a connection error is appended and the
stored research document is unchanged. -/
theorem invalid_json_transport_error_path
    (s : SessionState) (prompt t e : String)
    (hA : (active_agent_names s).length > 0) (hp : prompt ≠ "") :
    (chat_input_handler s (some prompt)
        (.success { status_code := 200, text := t, json := .err e })).messages
      = s.messages ++
        [userMessage prompt,
         { role := "assistant",
           content := "Error: Unable to connect to the research API. " ++ e,
           is_markdown := some false, visualization := none }] ∧
    strContains ("Error: Unable to connect to the research API. " ++ e)
      "Error: Unable to connect to the research API." = true ∧
    (chat_input_handler s (some prompt)
        (.success { status_code := 200, text := t, json := .err e })).research_document
      = s.research_document := by
  have hsplit : ("Error: Unable to connect to the research API. " : String)
      = "Error: Unable to connect to the research API." ++ " " := by decide
  have hcontains : strContains
      ("Error: Unable to connect to the research API. " ++ e)
      "Error: Unable to connect to the research API." = true := by
    rw [hsplit, String.append_assoc]
    exact strContains_append_left _ _
  refine ⟨?_, hcontains, ?_⟩ <;>
    simp only [chat_input_handler, if_pos hA, if_neg hp] <;>
    simp [submit_query]

/-- C10 witness: a concrete 200 response with an unparseable body leaves
the stored document unchanged and appends the connection-error message. -/
theorem invalid_json_transport_error_path_witness :
    (chat_input_handler sampleStateWithDoc (some "q")
        (.success { status_code := 200, text := "<html>",
                    json := .err "Expecting value" })).messages
      = sampleStateWithDoc.messages ++
        [userMessage "q",
         { role := "assistant",
           content := "Error: Unable to connect to the research API. "
             ++ "Expecting value",
           is_markdown := some false, visualization := none }] ∧
    strContains ("Error: Unable to connect to the research API. "
        ++ "Expecting value")
      "Error: Unable to connect to the research API." = true ∧
    (chat_input_handler sampleStateWithDoc (some "q")
        (.success { status_code := 200, text := "<html>",
                    json := .err "Expecting value" })).research_document
      = sampleStateWithDoc.research_document :=
  invalid_json_transport_error_path sampleStateWithDoc "q" "<html>"
    "Expecting value" (by decide) (by decide)

end App
